import Mathlib

/-!
Shallow embedding of `w3af/core/controllers/chrome/crawler/main.py`
(`ChromeCrawler`): the browser-automation crawl orchestrator.

Python exceptions are modelled as an explicit error type threaded through
`Except`; mutable controller/pool state is passed explicitly; the outcomes
of external collaborator calls (worker interface operations and extraction
strategies) are supplied by an environment.  Every controller method also
records an event trace so that acquisition/eviction ordering and
correlation-id propagation can be stated.
-/

deriving instance DecidableEq for Except

/-- The Python exception types that appear in the source module.
`otherError` stands for any exception outside the ones the module names
(Python code can raise arbitrary exceptions). -/
inductive PyExc where
  | chromeInterfaceException
  | chromeInterfaceTimeout
  | chromePoolException
  | chromeCrawlerException (msg : String)
  | assertionError (msg : String)
  | otherError
deriving DecidableEq, Repr

/-- Membership test for the tuple `(ChromeInterfaceException, ChromeInterfaceTimeout)`
used in every `except` clause of the load/wait/stop/cleanup phases. -/
def isInterfaceErr : PyExc → Bool
  | .chromeInterfaceException => true
  | .chromeInterfaceTimeout => true
  | _ => false

/-- Python return values that occur in the module: `None` and booleans. -/
inductive PyVal where
  | none
  | bool (b : Bool)
deriving DecidableEq, Repr

/-- The two crawl strategies constructed in `ChromeCrawler.__init__`:
`ChromeCrawlerJS` and `ChromeCrawlerDOMDump`. -/
inductive Strategy where
  | js
  | domDump
deriving DecidableEq, Repr

/-- Modelled from the spec: each `ExtractionStrategy` is identified by name
(`get_name` lives in the strategy modules `js.py` / `dom_dump.py`, which are
not part of the analysed source). -/
def Strategy.get_name : Strategy → String
  | .js => "ChromeCrawlerJS"
  | .domDump => "ChromeCrawlerDOMDump"

/-- Observable events emitted by the controller, in program order:
creation of the tagged traffic-sink wrapper (`CrawlerHTTPTrafficQueue`),
pool acquisition, `set_debugging_id`, the worker interface calls, strategy
invocation, and pool free / remove. -/
inductive Event where
  | sinkCreated (did : String)
  | poolGet (w : Nat)
  | setDebuggingId (w : Nat) (did : String)
  | loadUrl (w : Nat) (url : String)
  | waitForLoad (w : Nat)
  | stop (w : Nat)
  | strategyCrawl (name : String) (w : Nat) (url : String) (did : String)
  | loadAboutBlank (w : Nat)
  | poolFree (w : Nat)
  | poolRemove (w : Nat)
deriving DecidableEq, Repr

/-- The debugging id recorded in an event, when the source passes one to the
corresponding call. -/
def eventDid : Event → Option String
  | .sinkCreated did => some did
  | .setDebuggingId _ did => some did
  | .strategyCrawl _ _ _ did => some did
  | _ => Option.none

/-- Outcome of each worker-interface operation for one worker, supplied by
the environment.  `wait_for_load` returns a boolean on success (page loaded
before the timeout or not). -/
structure WorkerBehavior where
  load_url : Except PyExc Unit
  wait_for_load : Except PyExc Bool
  stop : Except PyExc Unit
  load_about_blank : Except PyExc Unit

/-- The environment: behaviour of each worker (identified by `Nat`), the
outcome of each strategy's `crawl` on each worker (`none` = success), and
each worker's captured console messages / JS errors. -/
structure Env where
  worker : Nat → WorkerBehavior
  strategy : Strategy → Nat → Option PyExc
  console_messages : Nat → List String
  js_errors : Nat → List String

/-- Modelled from the spec: the pool's default instance cap when
`max_instances` is `None` ("let the pool decide what is the max"). -/
def poolDefaultMax : Nat := 20

/-- Modelled from the spec: `ChromePool` (`w3af/core/controllers/chrome/pool.py`
is not part of the analysed source).  A bounded set of workers with an idle
set `free`, a borrowed set `in_use`, and a fresh-id supply for spawning. -/
structure ChromePool where
  free : List Nat
  in_use : List Nat
  next_id : Nat
  max_instances : Option Nat
deriving DecidableEq, Repr

/-- Modelled from the spec: `pool.get` hands out an idle worker if one
exists, spawns a fresh one while under the cap, and otherwise fails with
`ChromePoolException`. -/
def ChromePool.getWorker (p : ChromePool) : Except PyExc (Nat × ChromePool) :=
  match p.free with
  | w :: rest => .ok (w, { p with free := rest, in_use := w :: p.in_use })
  | [] =>
    if p.free.length + p.in_use.length < p.max_instances.getD poolDefaultMax then
      .ok (p.next_id, { p with in_use := p.next_id :: p.in_use, next_id := p.next_id + 1 })
    else
      .error .chromePoolException

/-- Modelled from the spec: `pool.free` returns a healthy worker to the
idle set. -/
def ChromePool.freeWorker (p : ChromePool) (w : Nat) : ChromePool :=
  { p with in_use := p.in_use.erase w, free := p.free ++ [w] }

/-- Modelled from the spec: `pool.remove` permanently evicts a worker from
the pool. -/
def ChromePool.removeWorker (p : ChromePool) (w : Nat) : ChromePool :=
  { p with in_use := p.in_use.erase w, free := p.free.erase w }

/-- Modelled from the spec: `pool.terminate` shuts down all workers. -/
def ChromePool.terminate (p : ChromePool) : ChromePool :=
  { p with free := [], in_use := [] }

/-- The controller's fields set in `ChromeCrawler.__init__`:
`_uri_opener`, `_web_spider`, `_pool`, `_crawl_strategies`.
Collaborator references are opaque `Nat` ids, `Option` because `terminate`
sets them to `None`. -/
structure ChromeCrawler where
  uri_opener : Option Nat
  web_spider : Option Nat
  pool : ChromePool
  crawl_strategies : List Strategy
deriving DecidableEq, Repr

/-- Execution state threaded through the methods: the controller object and
the emitted event trace. -/
structure St where
  crawler : ChromeCrawler
  events : List Event
deriving DecidableEq, Repr

/-- Append one event to the trace. -/
def emit (st : St) (e : Event) : St :=
  { st with events := st.events ++ [e] }

/-- Replace the controller's pool. -/
def setPool (st : St) (p : ChromePool) : St :=
  { st with crawler := { st.crawler with pool := p } }

/-- The alphanumeric alphabet of `rand_alnum`. -/
def ALNUM : List Char :=
  "abcdefghijklmnopqrstuvwxyzABCDEFGHIJKLMNOPQRSTUVWXYZ0123456789".toList

/-- Modelled from the spec: `rand_alnum` (from `w3af.core.data.fuzzer.utils`,
not part of the analysed source) draws a fixed-length random alphanumeric
string; randomness is supplied as a stream `rng`. -/
def rand_alnum (n : Nat) (rng : Nat → Nat) : String :=
  String.mk ((List.range n).map fun i =>
    ALNUM.get ⟨rng i % ALNUM.length, Nat.mod_lt _ (by decide)⟩)

/-- `ChromeCrawler.__init__`: stores the collaborators, builds the pool, and
builds the strategy list — `ChromeCrawlerJS` always, `ChromeCrawlerDOMDump`
appended when a `web_spider` was supplied. -/
def ChromeCrawler.init (uri_opener : Nat) (max_instances : Option Nat)
    (web_spider : Option Nat) : ChromeCrawler :=
  { uri_opener := some uri_opener
    web_spider := web_spider
    pool := { free := [], in_use := [], next_id := 0, max_instances := max_instances }
    crawl_strategies :=
      [Strategy.js] ++ (if web_spider.isSome then [Strategy.domDump] else []) }

/-- `ChromeCrawler._get_chrome_from_pool`: build the tagged traffic queue
(`CrawlerHTTPTrafficQueue(http_traffic_queue, debugging_id=debugging_id)`),
then `pool.get`; a `ChromePoolException` is wrapped into
`ChromeCrawlerException`. -/
def _get_chrome_from_pool (url did : String) (st : St) : Except PyExc Nat × St :=
  let st := emit st (.sinkCreated did)
  match st.crawler.pool.getWorker with
  | .error e =>
    match e with
    | .chromePoolException =>
      (.error (.chromeCrawlerException "Failed to get a chrome instance"), st)
    | _ => (.error e, st)
  | .ok (chrome, p) =>
    let _ := url
    (.ok chrome, emit (setPool st p) (.poolGet chrome))

/-- `ChromeCrawler._initial_page_load`: acquire a worker, `set_debugging_id`,
`load_url` (interface error/timeout → remove + wrapped failure), `wait_for_load`
(interface error/timeout → remove + wrapped failure; a `False` result is only
logged), then `stop` (interface error/timeout → remove + wrapped failure).
Exceptions outside the caught tuple propagate with no pool action. -/
def _initial_page_load (env : Env) (url did : String) (st : St) :
    Except PyExc Nat × St :=
  match _get_chrome_from_pool url did st with
  | (.error e, st) => (.error e, st)
  | (.ok chrome, st) =>
    let st := emit st (.setDebuggingId chrome did)
    let st := emit st (.loadUrl chrome url)
    match (env.worker chrome).load_url with
    | .error e =>
      if isInterfaceErr e then
        (.error (.chromeCrawlerException "Failed to load url using chrome"),
          emit (setPool st (st.crawler.pool.removeWorker chrome)) (.poolRemove chrome))
      else
        (.error e, st)
    | .ok _ =>
      let st := emit st (.waitForLoad chrome)
      match (env.worker chrome).wait_for_load with
      | .error e =>
        if isInterfaceErr e then
          (.error (.chromeCrawlerException "Exception raised while waiting for page load"),
            emit (setPool st (st.crawler.pool.removeWorker chrome)) (.poolRemove chrome))
        else
          (.error e, st)
      | .ok _successfully_loaded =>
        -- `if not successfully_loaded:` only logs a debug message.
        let st := emit st (.stop chrome)
        match (env.worker chrome).stop with
        | .error e =>
          if isInterfaceErr e then
            (.error (.chromeCrawlerException "Failed to stop chrome browser"),
              emit (setPool st (st.crawler.pool.removeWorker chrome)) (.poolRemove chrome))
          else
            (.error e, st)
        | .ok _ => (.ok chrome, st)

/-- `ChromeCrawler._cleanup`: `load_about_blank` (interface error/timeout →
remove + wrapped failure), else `pool.free` and return `True`. -/
def _cleanup (env : Env) (url : String) (chrome : Nat) (did : String) (st : St) :
    Except PyExc PyVal × St :=
  let _ := url
  let st := emit st (.loadAboutBlank chrome)
  match (env.worker chrome).load_about_blank with
  | .error e =>
    if isInterfaceErr e then
      (.error (.chromeCrawlerException "Failed to load about:blank in chrome browser"),
        emit (setPool st (st.crawler.pool.removeWorker chrome)) (.poolRemove chrome))
    else
      (.error e, st)
  | .ok _ =>
    let st := setPool st (st.crawler.pool.freeWorker chrome)
    let st := emit st (.poolFree chrome)
    (.ok (PyVal.bool true), st)

/-- The `for crawl_strategy in self._crawl_strategies:` loop body of
`ChromeCrawler._crawl`: per strategy, `_initial_page_load` (exceptions logged
and re-raised), `crawl_strategy.crawl` (any exception → `pool.remove` then
re-raised unchanged), `_cleanup` (exceptions logged and re-raised). -/
def _crawl_loop (env : Env) (url did : String) :
    List Strategy → St → Except PyExc Unit × St
  | [], st => (.ok (), st)
  | s :: rest, st =>
    match _initial_page_load env url did st with
    | (.error e, st) => (.error e, st)
    | (.ok chrome, st) =>
      let st := emit st (.strategyCrawl s.get_name chrome url did)
      match env.strategy s chrome with
      | some e =>
        (.error e,
          emit (setPool st (st.crawler.pool.removeWorker chrome)) (.poolRemove chrome))
      | Option.none =>
        match _cleanup env url chrome did st with
        | (.error e, st) => (.error e, st)
        | (.ok _, st) => _crawl_loop env url did rest st

/-- `ChromeCrawler._crawl`: run the strategy loop; falls off the end with an
implicit `return None`. -/
def _crawl (env : Env) (url did : String) (st : St) : Except PyExc PyVal × St :=
  match _crawl_loop env url did st.crawler.crawl_strategies st with
  | (.error e, st) => (.error e, st)
  | (.ok _, st) => (.ok PyVal.none, st)

/-- `ChromeCrawler.crawl`: generate `debugging_id = rand_alnum(8)` once, call
`_crawl`, and fall off the end with an implicit `return None` (the docstring
promises `True`, but `_crawl`'s value is discarded and nothing is returned). -/
def ChromeCrawler.crawl (env : Env) (rng : Nat → Nat) (url : String) (st : St) :
    Except PyExc PyVal × St :=
  let debugging_id := rand_alnum 8 rng
  match _crawl env url debugging_id st with
  | (.error e, st) => (.error e, st)
  | (.ok _, st) => (.ok PyVal.none, st)

/-- `ChromeCrawler.terminate`: `pool.terminate()`, then drop the
`_uri_opener` and `_web_spider` references. -/
def terminate (st : St) : Except PyExc PyVal × St :=
  let st := setPool st st.crawler.pool.terminate
  (.ok PyVal.none,
    { st with crawler := { st.crawler with uri_opener := Option.none, web_spider := Option.none } })

/-- `ChromeCrawler.print_all_console_messages`: assert that the pool's idle
set has exactly one instance (an `AssertionError` otherwise), then print each
console message of that instance.  The result pair is (Python return value,
lines printed to stdout); the Python return value is `None`. -/
def print_all_console_messages (env : Env) (st : St) :
    Except PyExc (PyVal × List String) :=
  if st.crawler.pool.free.length = 1 then
    let instrumented_chrome := st.crawler.pool.free.headD 0
    .ok (PyVal.none, env.console_messages instrumented_chrome)
  else
    .error (.assertionError "Chrome pool has N instances, one is required")

/-- `ChromeCrawler.get_js_errors`: assert that the pool's idle set has
exactly one instance (an `AssertionError` otherwise), then return that
instance's captured JS errors. -/
def get_js_errors (env : Env) (st : St) : Except PyExc (List String) :=
  if st.crawler.pool.free.length = 1 then
    .ok (env.js_errors (st.crawler.pool.free.headD 0))
  else
    .error (.assertionError "Chrome pool has N instances, one is required")

/-- The per-strategy event segment emitted by one fully successful iteration
of the `_crawl` loop. -/
def segmentEvents (s : Strategy) (w : Nat) (url did : String) : List Event :=
  [.sinkCreated did, .poolGet w, .setDebuggingId w did, .loadUrl w url,
   .waitForLoad w, .stop w, .strategyCrawl s.get_name w url did,
   .loadAboutBlank w, .poolFree w]

/-- Recognizes pool-acquisition events. -/
def isGetEvent : Event → Bool
  | .poolGet _ => true
  | _ => false

/-- Recognizes pool-free events. -/
def isFreeEvent : Event → Bool
  | .poolFree _ => true
  | _ => false

/-- Recognizes pool-eviction events. -/
def isRemoveEvent : Event → Bool
  | .poolRemove _ => true
  | _ => false

/-- Number of events in a trace satisfying a predicate. -/
def countEvents (p : Event → Bool) (evs : List Event) : Nat :=
  (evs.filter p).length

/-- An event either records no debugging id or records exactly `did`. -/
def evDidOk (did : String) (ev : Event) : Bool :=
  match eventDid ev with
  | some d => d == did
  | Option.none => true

/-- Whether a result failed with the wrapped `ChromeCrawlerException` type. -/
def errIsCrawlerFailure {α : Type} : Except PyExc α → Bool
  | .error (.chromeCrawlerException _) => true
  | _ => false

/-- Environments whose worker-interface operations all succeed, the
`wait_for_load` boolean given by `b`. -/
def OkWorkers (env : Env) (b : Nat → Bool) : Prop :=
  ∀ w, env.worker w =
    { load_url := .ok (), wait_for_load := .ok (b w),
      stop := .ok (), load_about_blank := .ok () }

/-- Environments whose strategies all succeed. -/
def OkStrategies (env : Env) : Prop :=
  ∀ s w, env.strategy s w = Option.none

/-- Environments in which every worker-interface failure is one of the two
Chrome-interface error types (the tuple caught by the pipeline's `except`
clauses); strategy outcomes stay arbitrary. -/
def InterfaceOnly (env : Env) : Prop :=
  ∀ w e,
    ((env.worker w).load_url = .error e → isInterfaceErr e = true) ∧
    ((env.worker w).wait_for_load = .error e → isInterfaceErr e = true) ∧
    ((env.worker w).stop = .error e → isInterfaceErr e = true) ∧
    ((env.worker w).load_about_blank = .error e → isInterfaceErr e = true)

/-- Override every worker's `wait_for_load` to return `b` successfully. -/
def setWait (env : Env) (b : Bool) : Env :=
  { env with worker := fun w => { env.worker w with wait_for_load := .ok b } }

/-- The worker-facing phases of one crawl-loop iteration. -/
inductive Phase where
  | load
  | wait
  | stopPhase
  | strategyPhase
  | cleanup
deriving DecidableEq, Repr

/-- The environment that injects error `e` at exactly phase `p`, every other
collaborator call succeeding. -/
def envErrAt (p : Phase) (e : PyExc) : Env :=
  { worker := fun _ =>
      { load_url := if p = Phase.load then .error e else .ok ()
        wait_for_load := if p = Phase.wait then .error e else .ok true
        stop := if p = Phase.stopPhase then .error e else .ok ()
        load_about_blank := if p = Phase.cleanup then .error e else .ok () }
    strategy := fun _ _ => if p = Phase.strategyPhase then some e else Option.none
    console_messages := fun _ => []
    js_errors := fun _ => [] }

/-- A controller state whose pool holds exactly one idle worker `w`. -/
def stW (w : Nat) : St :=
  ⟨{ uri_opener := some 0, web_spider := Option.none,
     pool := { free := [w], in_use := [], next_id := w + 1, max_instances := Option.none },
     crawl_strategies := [Strategy.js] }, []⟩

/-- One single-strategy crawl-loop run against the fault-injecting
environment `envErrAt p e`, starting from a pool with one idle worker. -/
def c9run (p : Phase) (e : PyExc) (w : Nat) (url did : String) :
    Except PyExc Unit × St :=
  _crawl_loop (envErrAt p e) url did [Strategy.js] (stW w)

/-- A worker whose every interface operation succeeds. -/
def allOkWorker : WorkerBehavior :=
  { load_url := .ok (), wait_for_load := .ok true,
    stop := .ok (), load_about_blank := .ok () }

/-- Fully successful environment. -/
def envOk : Env :=
  ⟨fun _ => allOkWorker, fun _ _ => Option.none, fun _ => [], fun _ => []⟩

/-- Successful environment whose `wait_for_load` always times out (returns
`False`). -/
def envWaitFalse : Env := setWait envOk false

/-- Environment whose `load_url` raises an exception outside the
Chrome-interface tuple. -/
def envLoadOther : Env :=
  { envOk with worker := fun _ => { allOkWorker with load_url := .error .otherError } }

/-- Environment whose strategies fail with an exception outside the
Chrome-interface tuple. -/
def envStratFail : Env :=
  { envOk with strategy := fun _ _ => some .otherError }

/-- Successful environment with fixed console messages and JS errors. -/
def envMsgs : Env :=
  { envOk with console_messages := fun _ => ["a", "b"], js_errors := fun _ => ["e1"] }

/-- Deterministic randomness stream for concrete runs. -/
def rng0 : Nat → Nat := fun _ => 0

/-- Controller state with both strategies configured (a web spider was
supplied) and one idle worker `5` in the pool. -/
def st2 : St :=
  ⟨{ uri_opener := some 0, web_spider := some 0,
     pool := { free := [5], in_use := [], next_id := 6, max_instances := Option.none },
     crawl_strategies := [Strategy.js, Strategy.domDump] }, []⟩

/-- Controller state with only the JS strategy configured and one idle
worker `5` in the pool. -/
def st1 : St :=
  ⟨{ uri_opener := some 0, web_spider := Option.none,
     pool := { free := [5], in_use := [], next_id := 6, max_instances := Option.none },
     crawl_strategies := [Strategy.js] }, []⟩

/-- Freshly constructed controller state: empty pool, no web spider. -/
def st0 : St := ⟨ChromeCrawler.init 0 Option.none Option.none, []⟩

/-- The pool state immediately after acquiring worker 5 from `st2`. -/
def p3 : ChromePool :=
  { free := [], in_use := [5], next_id := 6, max_instances := Option.none }

theorem getWorker_ok_in_use {p : ChromePool} {w : Nat} {p' : ChromePool}
    (h : p.getWorker = .ok (w, p')) : p'.in_use = w :: p.in_use := by
  unfold ChromePool.getWorker at h
  cases hf : p.free with
  | nil =>
    rw [hf] at h
    simp only [] at h
    split at h
    · simp only [Except.ok.injEq, Prod.mk.injEq] at h
      obtain ⟨h1, h2⟩ := h
      subst h1; subst h2
      rfl
    · exact absurd h (by simp)
  | cons a l =>
    rw [hf] at h
    simp only [Except.ok.injEq, Prod.mk.injEq] at h
    obtain ⟨h1, h2⟩ := h
    subst h1; subst h2
    rfl

theorem getWorker_singleton {p : ChromePool} {w : Nat} (h : p.free = [w]) :
    p.getWorker = .ok (w, { p with free := [], in_use := w :: p.in_use }) := by
  unfold ChromePool.getWorker
  rw [h]

theorem gcp_ok {st : St} {w : Nat} {p : ChromePool}
    (hget : st.crawler.pool.getWorker = .ok (w, p)) (url did : String) :
    _get_chrome_from_pool url did st =
      (.ok w, ⟨{ st.crawler with pool := p },
        st.events ++ [.sinkCreated did, .poolGet w]⟩) := by
  unfold _get_chrome_from_pool
  simp [emit, setPool, hget]

theorem getWorker_err_shape {p : ChromePool} {e : PyExc}
    (h : p.getWorker = .error e) : e = .chromePoolException := by
  unfold ChromePool.getWorker at h
  cases hf : p.free with
  | nil =>
    rw [hf] at h
    simp only [] at h
    split at h
    · exact absurd h (by simp)
    · simp only [Except.error.injEq] at h
      exact h.symm
  | cons a l =>
    rw [hf] at h
    exact absurd h (by simp)

theorem gcp_err {st : St} {e : PyExc}
    (hget : st.crawler.pool.getWorker = .error e) (url did : String) :
    _get_chrome_from_pool url did st =
      (.error (.chromeCrawlerException "Failed to get a chrome instance"),
        ⟨st.crawler, st.events ++ [.sinkCreated did]⟩) := by
  have he := getWorker_err_shape hget
  subst he
  unfold _get_chrome_from_pool
  simp [emit, setPool, hget]

theorem ipl_ok {env : Env} {st : St} {w : Nat} {p : ChromePool} {b : Bool}
    (hget : st.crawler.pool.getWorker = .ok (w, p))
    (hl : (env.worker w).load_url = .ok ())
    (hwt : (env.worker w).wait_for_load = .ok b)
    (hst : (env.worker w).stop = .ok ())
    (url did : String) :
    _initial_page_load env url did st =
      (.ok w, ⟨{ st.crawler with pool := p },
        st.events ++ [.sinkCreated did, .poolGet w, .setDebuggingId w did,
          .loadUrl w url, .waitForLoad w, .stop w]⟩) := by
  unfold _initial_page_load
  rw [gcp_ok hget]
  simp [emit, setPool, hl, hwt, hst]

theorem ipl_load_err {env : Env} {st : St} {w : Nat} {p : ChromePool} {e : PyExc}
    (hget : st.crawler.pool.getWorker = .ok (w, p))
    (hl : (env.worker w).load_url = .error e)
    (url did : String) :
    _initial_page_load env url did st =
      if isInterfaceErr e then
        (.error (.chromeCrawlerException "Failed to load url using chrome"),
          ⟨{ st.crawler with pool := p.removeWorker w },
            st.events ++ [.sinkCreated did, .poolGet w, .setDebuggingId w did,
              .loadUrl w url, .poolRemove w]⟩)
      else
        (.error e, ⟨{ st.crawler with pool := p },
          st.events ++ [.sinkCreated did, .poolGet w, .setDebuggingId w did,
            .loadUrl w url]⟩) := by
  unfold _initial_page_load
  rw [gcp_ok hget]
  by_cases hi : isInterfaceErr e <;> simp [emit, setPool, hl, hi]

theorem ipl_wait_err {env : Env} {st : St} {w : Nat} {p : ChromePool} {e : PyExc}
    (hget : st.crawler.pool.getWorker = .ok (w, p))
    (hl : (env.worker w).load_url = .ok ())
    (hwt : (env.worker w).wait_for_load = .error e)
    (url did : String) :
    _initial_page_load env url did st =
      if isInterfaceErr e then
        (.error (.chromeCrawlerException "Exception raised while waiting for page load"),
          ⟨{ st.crawler with pool := p.removeWorker w },
            st.events ++ [.sinkCreated did, .poolGet w, .setDebuggingId w did,
              .loadUrl w url, .waitForLoad w, .poolRemove w]⟩)
      else
        (.error e, ⟨{ st.crawler with pool := p },
          st.events ++ [.sinkCreated did, .poolGet w, .setDebuggingId w did,
            .loadUrl w url, .waitForLoad w]⟩) := by
  unfold _initial_page_load
  rw [gcp_ok hget]
  by_cases hi : isInterfaceErr e <;> simp [emit, setPool, hl, hwt, hi]

theorem ipl_stop_err {env : Env} {st : St} {w : Nat} {p : ChromePool} {b : Bool} {e : PyExc}
    (hget : st.crawler.pool.getWorker = .ok (w, p))
    (hl : (env.worker w).load_url = .ok ())
    (hwt : (env.worker w).wait_for_load = .ok b)
    (hst : (env.worker w).stop = .error e)
    (url did : String) :
    _initial_page_load env url did st =
      if isInterfaceErr e then
        (.error (.chromeCrawlerException "Failed to stop chrome browser"),
          ⟨{ st.crawler with pool := p.removeWorker w },
            st.events ++ [.sinkCreated did, .poolGet w, .setDebuggingId w did,
              .loadUrl w url, .waitForLoad w, .stop w, .poolRemove w]⟩)
      else
        (.error e, ⟨{ st.crawler with pool := p },
          st.events ++ [.sinkCreated did, .poolGet w, .setDebuggingId w did,
            .loadUrl w url, .waitForLoad w, .stop w]⟩) := by
  unfold _initial_page_load
  rw [gcp_ok hget]
  by_cases hi : isInterfaceErr e <;> simp [emit, setPool, hl, hwt, hst, hi]

theorem cleanup_ok {env : Env} {w : Nat}
    (hb : (env.worker w).load_about_blank = .ok ())
    (url did : String) (st : St) :
    _cleanup env url w did st =
      (.ok (PyVal.bool true),
        ⟨{ st.crawler with pool := st.crawler.pool.freeWorker w },
          st.events ++ [.loadAboutBlank w, .poolFree w]⟩) := by
  unfold _cleanup
  simp [emit, setPool, hb]

theorem cleanup_err {env : Env} {w : Nat} {e : PyExc}
    (hb : (env.worker w).load_about_blank = .error e)
    (url did : String) (st : St) :
    _cleanup env url w did st =
      if isInterfaceErr e then
        (.error (.chromeCrawlerException "Failed to load about:blank in chrome browser"),
          ⟨{ st.crawler with pool := st.crawler.pool.removeWorker w },
            st.events ++ [.loadAboutBlank w, .poolRemove w]⟩)
      else
        (.error e, ⟨st.crawler, st.events ++ [.loadAboutBlank w]⟩) := by
  unfold _cleanup
  by_cases hi : isInterfaceErr e <;> simp [emit, setPool, hb, hi]

theorem freeWorker_restore {p : ChromePool} {w : Nat} (h : p.free = [w]) :
    ChromePool.freeWorker { p with free := [], in_use := w :: p.in_use } w = p := by
  cases p with
  | mk f iu ni mi => simp_all [ChromePool.freeWorker, List.erase_cons_head]

theorem loop_ok_trace {env : Env} {b : Nat → Bool}
    (hwk : OkWorkers env b) (hs : OkStrategies env) (url did : String) :
    ∀ (strategies : List Strategy) (st : St) (w : Nat),
      st.crawler.pool.free = [w] →
      _crawl_loop env url did strategies st =
        (.ok (), { st with events :=
          st.events ++ strategies.flatMap (fun s => segmentEvents s w url did) }) := by
  intro strategies
  induction strategies with
  | nil => intro st w hfree; simp [_crawl_loop]
  | cons s rest ih =>
    intro st w hfree
    have hget := getWorker_singleton hfree
    have hw := hwk w
    have hl : (env.worker w).load_url = .ok () := by rw [hw]
    have hwt : (env.worker w).wait_for_load = .ok (b w) := by rw [hw]
    have hst : (env.worker w).stop = .ok () := by rw [hw]
    have hb : (env.worker w).load_about_blank = .ok () := by rw [hw]
    simp only [_crawl_loop]
    rw [ipl_ok hget hl hwt hst url did]
    simp only [emit, hs s w]
    rw [cleanup_ok hb url did]
    simp only []
    rw [freeWorker_restore hfree]
    rw [ih _ w (by simp [hfree])]
    simp [segmentEvents, List.append_assoc]

theorem crawl_ok_trace {env : Env} {b : Nat → Bool}
    (hwk : OkWorkers env b) (hs : OkStrategies env) (rng : Nat → Nat) (url : String)
    {st : St} {w : Nat} (hfree : st.crawler.pool.free = [w]) :
    ChromeCrawler.crawl env rng url st =
      (.ok PyVal.none, { st with events := st.events ++
        st.crawler.crawl_strategies.flatMap (fun s => segmentEvents s w url (rand_alnum 8 rng)) }) := by
  have h := loop_ok_trace hwk hs url (rand_alnum 8 rng) st.crawler.crawl_strategies st w hfree
  simp only [ChromeCrawler.crawl, _crawl, h]

theorem ipl_pool_err {env : Env} {st : St} {e : PyExc}
    (hget : st.crawler.pool.getWorker = .error e) (url did : String) :
    _initial_page_load env url did st =
      (.error (.chromeCrawlerException "Failed to get a chrome instance"),
        ⟨st.crawler, st.events ++ [.sinkCreated did]⟩) := by
  unfold _initial_page_load
  rw [gcp_err hget]

theorem countEvents_append (p : Event → Bool) (a c : List Event) :
    countEvents p (a ++ c) = countEvents p a + countEvents p c := by
  simp [countEvents, List.filter_append]

theorem loop_inuse {env : Env} (honly : InterfaceOnly env) (url did : String) :
    ∀ (strategies : List Strategy) (st : St),
      (((_crawl_loop env url did strategies st).2).crawler.pool.in_use
          = st.crawler.pool.in_use)
      ∧ ((_crawl_loop env url did strategies st).1 = .ok () →
          countEvents isRemoveEvent ((_crawl_loop env url did strategies st).2).events
              = countEvents isRemoveEvent st.events
          ∧ countEvents isFreeEvent ((_crawl_loop env url did strategies st).2).events
                + countEvents isGetEvent st.events
              = countEvents isGetEvent ((_crawl_loop env url did strategies st).2).events
                + countEvents isFreeEvent st.events) := by
  intro strategies
  induction strategies with
  | nil => intro st; exact ⟨by simp [_crawl_loop], fun _ => by simp [_crawl_loop, Nat.add_comm]⟩
  | cons s rest ih =>
    intro st
    cases hget : st.crawler.pool.getWorker with
    | error e =>
      simp only [_crawl_loop, ipl_pool_err hget url did]
      simp
    | ok wp =>
      obtain ⟨w, p⟩ := wp
      have hin := getWorker_ok_in_use hget
      cases hlu : (env.worker w).load_url with
      | error e =>
        have hi : isInterfaceErr e = true := ((honly w e).1) hlu
        simp only [_crawl_loop, ipl_load_err hget hlu url did, hi, if_true]
        simp [ChromePool.removeWorker, hin, List.erase_cons_head]
      | ok u =>
        cases u
        cases hwt : (env.worker w).wait_for_load with
        | error e =>
          have hi : isInterfaceErr e = true := ((honly w e).2.1) hwt
          simp only [_crawl_loop, ipl_wait_err hget hlu hwt url did, hi, if_true]
          simp [ChromePool.removeWorker, hin, List.erase_cons_head]
        | ok bb =>
          cases hst : (env.worker w).stop with
          | error e =>
            have hi : isInterfaceErr e = true := ((honly w e).2.2.1) hst
            simp only [_crawl_loop, ipl_stop_err hget hlu hwt hst url did, hi, if_true]
            simp [ChromePool.removeWorker, hin, List.erase_cons_head]
          | ok u' =>
            cases u'
            simp only [_crawl_loop, ipl_ok hget hlu hwt hst url did]
            cases hstrat : env.strategy s w with
            | some e =>
              simp only [emit, hstrat]
              simp [emit, setPool, ChromePool.removeWorker, hin, List.erase_cons_head]
            | none =>
              simp only [emit, hstrat]
              cases hb : (env.worker w).load_about_blank with
              | error e =>
                have hi : isInterfaceErr e = true := ((honly w e).2.2.2) hb
                rw [cleanup_err hb url did]
                simp only [hi, if_true]
                simp [ChromePool.removeWorker, hin, List.erase_cons_head]
              | ok ub =>
                cases ub
                rw [cleanup_ok hb url did]
                simp only []
                refine ⟨?_, ?_⟩
                · rw [(ih _).1]
                  simp [ChromePool.freeWorker, hin, List.erase_cons_head]
                · intro hok
                  obtain ⟨h1, h2⟩ := (ih _).2 hok
                  simp only [List.append_assoc] at h1 h2 ⊢
                  simp [countEvents_append, countEvents, isRemoveEvent, isFreeEvent,
                    isGetEvent] at h1 h2 ⊢
                  omega

theorem ipl_setWait (env : Env) (b b' : Bool) (url did : String) (st : St) :
    _initial_page_load (setWait env b) url did st
      = _initial_page_load (setWait env b') url did st := by
  unfold _initial_page_load _get_chrome_from_pool
  simp [setWait, emit, setPool]

theorem cleanup_setWait (env : Env) (b : Bool) (url : String) (w : Nat)
    (did : String) (st : St) :
    _cleanup (setWait env b) url w did st = _cleanup env url w did st := by
  unfold _cleanup
  simp [setWait]

theorem loop_setWait (env : Env) (b b' : Bool) (url did : String) :
    ∀ (strategies : List Strategy) (st : St),
      _crawl_loop (setWait env b) url did strategies st
        = _crawl_loop (setWait env b') url did strategies st := by
  intro strategies
  induction strategies with
  | nil => intro st; rfl
  | cons s rest ih =>
    intro st
    simp only [_crawl_loop]
    rw [ipl_setWait env b b' url did st]
    cases hipl : _initial_page_load (setWait env b') url did st with
    | mk r st1 =>
      cases r with
      | error e => rfl
      | ok chrome =>
        have hsb : (setWait env b).strategy = env.strategy := rfl
        have hsb' : (setWait env b').strategy = env.strategy := rfl
        simp only [hsb, hsb']
        cases hs : env.strategy s chrome with
        | some e => rfl
        | none =>
          rw [cleanup_setWait env b, cleanup_setWait env b']
          cases hcl : _cleanup env url chrome did
              (emit st1 (.strategyCrawl s.get_name chrome url did)) with
          | mk rc st2 =>
            cases rc with
            | error e => rfl
            | ok v => exact ih st2

theorem crawl_setWait (env : Env) (b b' : Bool) (rng : Nat → Nat) (url : String) (st : St) :
    ChromeCrawler.crawl (setWait env b) rng url st
      = ChromeCrawler.crawl (setWait env b') rng url st := by
  simp only [ChromeCrawler.crawl, _crawl]
  rw [loop_setWait env b b' url (rand_alnum 8 rng) st.crawler.crawl_strategies st]

theorem loop_did (env : Env) (url did : String) :
    ∀ (strategies : List Strategy) (st : St),
      st.events.all (evDidOk did) = true →
      (((_crawl_loop env url did strategies st).2).events.all (evDidOk did)) = true := by
  intro strategies
  induction strategies with
  | nil => intro st h; simpa [_crawl_loop] using h
  | cons s rest ih =>
    intro st h
    cases hget : st.crawler.pool.getWorker with
    | error e =>
      simp only [_crawl_loop, ipl_pool_err hget url did]
      simp [List.all_append, h, evDidOk, eventDid]
    | ok wp =>
      obtain ⟨w, p⟩ := wp
      cases hlu : (env.worker w).load_url with
      | error e =>
        simp only [_crawl_loop, ipl_load_err hget hlu url did]
        by_cases hi : isInterfaceErr e <;>
          simp [hi, List.all_append, h, evDidOk, eventDid]
      | ok u =>
        cases u
        cases hwt : (env.worker w).wait_for_load with
        | error e =>
          simp only [_crawl_loop, ipl_wait_err hget hlu hwt url did]
          by_cases hi : isInterfaceErr e <;>
            simp [hi, List.all_append, h, evDidOk, eventDid]
        | ok bb =>
          cases hst : (env.worker w).stop with
          | error e =>
            simp only [_crawl_loop, ipl_stop_err hget hlu hwt hst url did]
            by_cases hi : isInterfaceErr e <;>
              simp [hi, List.all_append, h, evDidOk, eventDid]
          | ok u' =>
            cases u'
            simp only [_crawl_loop, ipl_ok hget hlu hwt hst url did]
            cases hstrat : env.strategy s w with
            | some e =>
              simp only [emit, hstrat]
              simp [emit, setPool, List.all_append, h, evDidOk, eventDid]
            | none =>
              simp only [emit, hstrat]
              cases hb : (env.worker w).load_about_blank with
              | error e =>
                rw [cleanup_err hb url did]
                by_cases hi : isInterfaceErr e <;>
                  simp [hi, List.all_append, h, evDidOk, eventDid]
              | ok ub =>
                cases ub
                rw [cleanup_ok hb url did]
                simp only []
                apply ih
                simp [List.all_append, h, evDidOk, eventDid]

/-- C8: at construction the strategy list is built once with the
triggered-request (JS) strategy always first and the DOM-snapshot strategy
appended exactly when a web spider was supplied, so the list is never empty
and has length 1 or 2. -/
theorem c8_strategy_list_shape (uri_opener : Nat) (max_instances : Option Nat)
    (web_spider : Option Nat) :
    (ChromeCrawler.init uri_opener max_instances web_spider).crawl_strategies
        = (if web_spider.isSome then [Strategy.js, Strategy.domDump] else [Strategy.js])
    ∧ (ChromeCrawler.init uri_opener max_instances web_spider).crawl_strategies.head?
        = some Strategy.js
    ∧ (Strategy.domDump ∈ (ChromeCrawler.init uri_opener max_instances web_spider).crawl_strategies
        ↔ web_spider.isSome = true)
    ∧ (ChromeCrawler.init uri_opener max_instances web_spider).crawl_strategies ≠ []
    ∧ ((ChromeCrawler.init uri_opener max_instances web_spider).crawl_strategies.length = 1
        ∨ (ChromeCrawler.init uri_opener max_instances web_spider).crawl_strategies.length = 2) := by
  cases web_spider <;> simp [ChromeCrawler.init]

/-- C6: terminate is idempotent — a second call after a first one returns the
same successful result and state, and after terminate returns the
collaborator references (`_uri_opener`, `_web_spider`) are released. -/
theorem c6_terminate_idempotent (st : St) :
    terminate ((terminate st).2) = terminate st
    ∧ (terminate st).1 = .ok PyVal.none
    ∧ ((terminate st).2).crawler.uri_opener = Option.none
    ∧ ((terminate st).2).crawler.web_spider = Option.none := by
  simp [terminate, setPool, ChromePool.terminate]

/-- C10: a successful `crawl` returns Python `None` — the `True` produced by
`_cleanup` is discarded in `_crawl` and never reaches the caller, despite the
docstring promising `True` on success. -/
theorem c10_crawl_returns_none :
    (∀ (env : Env) (rng : Nat → Nat) (url : String) (st : St) (v : PyVal) (st' : St),
        ChromeCrawler.crawl env rng url st = (.ok v, st') → v = PyVal.none)
    ∧ (∀ (env : Env) (url : String) (w : Nat) (did : String) (st : St) (v : PyVal) (st' : St),
        _cleanup env url w did st = (.ok v, st') → v = PyVal.bool true) := by
  constructor
  · intro env rng url st v st' h
    simp only [ChromeCrawler.crawl, _crawl] at h
    cases hres : _crawl_loop env url (rand_alnum 8 rng) st.crawler.crawl_strategies st with
    | mk r st1 =>
      rw [hres] at h
      cases r with
      | error e => simp at h
      | ok u => simp only [Prod.mk.injEq, Except.ok.injEq] at h; exact h.1.symm
  · intro env url w did st v st' h
    cases hb : (env.worker w).load_about_blank with
    | error e =>
      rw [cleanup_err hb url did] at h
      by_cases hi : isInterfaceErr e <;> simp [hi] at h
    | ok u =>
      cases u
      rw [cleanup_ok hb url did] at h
      simp only [Prod.mk.injEq, Except.ok.injEq] at h
      exact h.1.symm

/-- Witness for C10 at a concrete successful run. -/
theorem c10_witness :
    ChromeCrawler.crawl envOk rng0 "u" st1
        = (.ok PyVal.none, (ChromeCrawler.crawl envOk rng0 "u" st1).2)
    ∧ _cleanup envOk "u" 5 "d" st1
        = (.ok (PyVal.bool true), (_cleanup envOk "u" 5 "d" st1).2)
    ∧ PyVal.none = PyVal.none
    ∧ PyVal.bool true = PyVal.bool true := by
  refine ⟨by decide, by decide, ?_, ?_⟩
  · exact c10_crawl_returns_none.1 envOk rng0 "u" st1 PyVal.none
      (ChromeCrawler.crawl envOk rng0 "u" st1).2 (by decide)
  · exact c10_crawl_returns_none.2 envOk "u" 5 "d" st1 (PyVal.bool true)
      (_cleanup envOk "u" 5 "d" st1).2 (by decide)

/-- C5 counterexample: with exactly one idle worker holding console messages
`["a", "b"]`, `print_all_console_messages` returns Python `None` (the
messages are only printed to stdout, the second component), so the
console-message accessor does not return the ordered sequence of strings the
claim promises. -/
theorem c5_counterexample :
    print_all_console_messages envMsgs (stW 5) = .ok (PyVal.none, ["a", "b"]) := by
  decide

/-- C5 (amended): both diagnostic accessors fail with an `AssertionError`
precondition error whenever the pool's idle count is not exactly 1; when it
is 1, the console accessor prints the messages in order and returns `None`,
and the JS-error accessor returns the ordered error list. -/
theorem c5_accessors_amended (env : Env) (st : St) (w : Nat) :
    (st.crawler.pool.free.length ≠ 1 →
        print_all_console_messages env st
            = .error (.assertionError "Chrome pool has N instances, one is required")
        ∧ get_js_errors env st
            = .error (.assertionError "Chrome pool has N instances, one is required"))
    ∧ (st.crawler.pool.free = [w] →
        print_all_console_messages env st = .ok (PyVal.none, env.console_messages w)
        ∧ get_js_errors env st = .ok (env.js_errors w)) := by
  constructor
  · intro h
    simp [print_all_console_messages, get_js_errors, h]
  · intro h
    simp [print_all_console_messages, get_js_errors, h]

/-- Witness for C5 (amended) on a singleton pool and on an empty pool. -/
theorem c5_witness :
    ((stW 5).crawler.pool.free = [5]
      ∧ print_all_console_messages envMsgs (stW 5) = .ok (PyVal.none, envMsgs.console_messages 5)
      ∧ get_js_errors envMsgs (stW 5) = .ok (envMsgs.js_errors 5))
    ∧ (st0.crawler.pool.free.length ≠ 1
      ∧ print_all_console_messages envMsgs st0
          = .error (.assertionError "Chrome pool has N instances, one is required")
      ∧ get_js_errors envMsgs st0
          = .error (.assertionError "Chrome pool has N instances, one is required")) := by
  constructor
  · refine ⟨by decide, ?_⟩
    exact (c5_accessors_amended envMsgs (stW 5) 5).2 (by decide)
  · refine ⟨by decide, ?_⟩
    exact (c5_accessors_amended envMsgs st0 0).1 (by decide)

/-- C1 counterexample: with both strategies configured and an all-successful
environment, one `crawl` call acquires a worker from the pool twice (once per
strategy), not exactly once as the claim states. -/
theorem c1_counterexample :
    countEvents isGetEvent ((ChromeCrawler.crawl envOk rng0 "u" st2).2).events = 2
    ∧ countEvents isGetEvent ((ChromeCrawler.crawl envOk rng0 "u" st2).2).events ≠ 1 := by
  decide

/-- C2 counterexample: when `load_url` raises an exception outside the
Chrome-interface tuple, `crawl` fails but the borrowed worker is neither
returned to the idle set nor evicted — it stays in the pool's in-use set
(a zombie), contradicting the claim that every failure path evicts. -/
theorem c2_counterexample :
    (ChromeCrawler.crawl envLoadOther rng0 "u" st2).1 = .error PyExc.otherError
    ∧ ((ChromeCrawler.crawl envLoadOther rng0 "u" st2).2).crawler.pool.in_use = [5]
    ∧ ((ChromeCrawler.crawl envLoadOther rng0 "u" st2).2).crawler.pool.free = []
    ∧ countEvents isFreeEvent ((ChromeCrawler.crawl envLoadOther rng0 "u" st2).2).events = 0
    ∧ countEvents isRemoveEvent ((ChromeCrawler.crawl envLoadOther rng0 "u" st2).2).events = 0
    ∧ countEvents isGetEvent ((ChromeCrawler.crawl envLoadOther rng0 "u" st2).2).events = 1 := by
  decide

/-- C3 counterexample: when a strategy fails, the original exception reaches
the caller unchanged — it is not wrapped into the `ChromeCrawlerException`
(`CrawlFailure`) type the claim promises. -/
theorem c3_counterexample :
    (ChromeCrawler.crawl envStratFail rng0 "u" st2).1 = .error PyExc.otherError
    ∧ errIsCrawlerFailure (ChromeCrawler.crawl envStratFail rng0 "u" st2).1 = false := by
  decide

/-- C1 (amended): one `crawl` call runs the full acquire → load/wait/stop →
strategy → cleanup → free pipeline once per configured strategy, in declared
order.  With a singleton idle pool and an all-successful environment the call
succeeds and its trace is the concatenation, over the configured strategies
in order, of one complete per-strategy segment, each acquiring and freeing
the (recycled) worker. -/
theorem c1_pipeline_per_strategy (env : Env) (b : Nat → Bool) (rng : Nat → Nat)
    (url : String) (st : St) (w : Nat)
    (hwk : OkWorkers env b) (hs : OkStrategies env)
    (hfree : st.crawler.pool.free = [w]) :
    ChromeCrawler.crawl env rng url st =
      (.ok PyVal.none, { st with events := st.events ++
        st.crawler.crawl_strategies.flatMap (fun s => segmentEvents s w url (rand_alnum 8 rng)) }) :=
  crawl_ok_trace hwk hs rng url hfree

/-- Witness for C1 (amended): the concrete two-strategy state. -/
theorem c1_witness :
    OkWorkers envOk (fun _ => true)
    ∧ OkStrategies envOk
    ∧ st2.crawler.pool.free = [5]
    ∧ ChromeCrawler.crawl envOk rng0 "u" st2 =
        (.ok PyVal.none, { st2 with events := st2.events ++
          st2.crawler.crawl_strategies.flatMap (fun s => segmentEvents s 5 "u" (rand_alnum 8 rng0)) }) :=
  ⟨fun _ => rfl, fun _ _ => rfl, rfl,
    c1_pipeline_per_strategy envOk (fun _ => true) rng0 "u" st2 5
      (fun _ => rfl) (fun _ _ => rfl) rfl⟩

/-- C2 (amended): in environments whose worker-interface failures are all
Chrome-interface errors (strategy failures unrestricted), every `crawl` call
leaves the pool's in-use set exactly as it found it — each borrowed worker
ends freed or evicted, never orphaned — and a successful call performs no
eviction and exactly as many frees as acquisitions. -/
theorem c2_no_zombie_workers (env : Env) (rng : Nat → Nat) (url : String) (st : St)
    (honly : InterfaceOnly env) :
    (((ChromeCrawler.crawl env rng url st).2).crawler.pool.in_use = st.crawler.pool.in_use)
    ∧ ((ChromeCrawler.crawl env rng url st).1 = .ok PyVal.none →
        countEvents isRemoveEvent ((ChromeCrawler.crawl env rng url st).2).events
            = countEvents isRemoveEvent st.events
        ∧ countEvents isFreeEvent ((ChromeCrawler.crawl env rng url st).2).events
              + countEvents isGetEvent st.events
            = countEvents isGetEvent ((ChromeCrawler.crawl env rng url st).2).events
              + countEvents isFreeEvent st.events) := by
  obtain ⟨h1, h2⟩ := loop_inuse honly url (rand_alnum 8 rng) st.crawler.crawl_strategies st
  simp only [ChromeCrawler.crawl, _crawl]
  cases hres : _crawl_loop env url (rand_alnum 8 rng) st.crawler.crawl_strategies st with
  | mk r st1 =>
    rw [hres] at h1 h2
    cases r with
    | error e => exact ⟨h1, by simp⟩
    | ok u =>
      cases u
      exact ⟨h1, fun _ => h2 rfl⟩

/-- The all-successful environment raises no worker-interface errors at all. -/
theorem interfaceOnly_envOk : InterfaceOnly envOk := by
  intro w e
  refine ⟨?_, ?_, ?_, ?_⟩ <;> intro h <;> simp [envOk, allOkWorker] at h

/-- Witness for C2 (amended) on a successful two-strategy run. -/
theorem c2_witness :
    InterfaceOnly envOk
    ∧ (((ChromeCrawler.crawl envOk rng0 "u" st2).2).crawler.pool.in_use
        = st2.crawler.pool.in_use)
    ∧ ((ChromeCrawler.crawl envOk rng0 "u" st2).1 = .ok PyVal.none →
        countEvents isRemoveEvent ((ChromeCrawler.crawl envOk rng0 "u" st2).2).events
            = countEvents isRemoveEvent st2.events
        ∧ countEvents isFreeEvent ((ChromeCrawler.crawl envOk rng0 "u" st2).2).events
              + countEvents isGetEvent st2.events
            = countEvents isGetEvent ((ChromeCrawler.crawl envOk rng0 "u" st2).2).events
              + countEvents isFreeEvent st2.events) :=
  ⟨interfaceOnly_envOk,
    (c2_no_zombie_workers envOk rng0 "u" st2 interfaceOnly_envOk).1,
    (c2_no_zombie_workers envOk rng0 "u" st2 interfaceOnly_envOk).2⟩

/-- C3 (amended): when a strategy's crawl invocation fails with any error
after a successful initial page load, the worker is evicted from the pool
(removed, never freed), no remaining strategy runs (the trace ends at the
eviction), and the original exception — not a wrapped `ChromeCrawlerException`
— propagates to the caller. -/
theorem c3_strategy_failure_evicts (env : Env) (url did : String) (st : St)
    (w : Nat) (p : ChromePool) (b : Bool) (s : Strategy) (rest : List Strategy)
    (e : PyExc)
    (hget : st.crawler.pool.getWorker = .ok (w, p))
    (hl : (env.worker w).load_url = .ok ())
    (hwt : (env.worker w).wait_for_load = .ok b)
    (hst : (env.worker w).stop = .ok ())
    (hstrat : env.strategy s w = some e) :
    _crawl_loop env url did (s :: rest) st =
      (.error e, ⟨{ st.crawler with pool := p.removeWorker w },
        st.events ++ [.sinkCreated did, .poolGet w, .setDebuggingId w did,
          .loadUrl w url, .waitForLoad w, .stop w,
          .strategyCrawl s.get_name w url did, .poolRemove w]⟩) := by
  simp only [_crawl_loop, ipl_ok hget hl hwt hst url did]
  simp only [emit, hstrat]
  simp [emit, setPool, List.append_assoc]

/-- Witness for C3 (amended) at the concrete failing-strategy run. -/
theorem c3_witness :
    st2.crawler.pool.getWorker
        = .ok (5, p3)
    ∧ (envStratFail.worker 5).load_url = .ok ()
    ∧ (envStratFail.worker 5).wait_for_load = .ok true
    ∧ (envStratFail.worker 5).stop = .ok ()
    ∧ envStratFail.strategy Strategy.js 5 = some PyExc.otherError
    ∧ _crawl_loop envStratFail "u" "d" (Strategy.js :: [Strategy.domDump]) st2 =
        (.error PyExc.otherError,
          ⟨{ st2.crawler with pool := p3.removeWorker 5 },
            st2.events ++ [.sinkCreated "d", .poolGet 5, .setDebuggingId 5 "d",
              .loadUrl 5 "u", .waitForLoad 5, .stop 5,
              .strategyCrawl Strategy.js.get_name 5 "u" "d", .poolRemove 5]⟩) :=
  ⟨by decide, rfl, rfl, rfl, rfl,
    c3_strategy_failure_evicts envStratFail "u" "d" st2 5 p3
      true Strategy.js [Strategy.domDump] PyExc.otherError
      (by decide) rfl rfl rfl rfl⟩

/-- C4: a wait-for-load timeout (a `False` result) is not a job failure —
the outcome and final state of `crawl` are identical whether `wait_for_load`
reports `False` or `True`, and on the concrete timing-out run the job still
succeeds, still calls `stop`, frees the worker back to the idle set, and
evicts nothing. -/
theorem c4_wait_timeout_nonfatal :
    (∀ (env : Env) (rng : Nat → Nat) (url : String) (st : St),
        ChromeCrawler.crawl (setWait env false) rng url st
          = ChromeCrawler.crawl (setWait env true) rng url st)
    ∧ (ChromeCrawler.crawl envWaitFalse rng0 "u" st1).1 = .ok PyVal.none
    ∧ ((ChromeCrawler.crawl envWaitFalse rng0 "u" st1).2).crawler.pool.free = [5]
    ∧ Event.waitForLoad 5 ∈ ((ChromeCrawler.crawl envWaitFalse rng0 "u" st1).2).events
    ∧ Event.stop 5 ∈ ((ChromeCrawler.crawl envWaitFalse rng0 "u" st1).2).events
    ∧ countEvents isRemoveEvent ((ChromeCrawler.crawl envWaitFalse rng0 "u" st1).2).events = 0 := by
  refine ⟨fun env rng url st => crawl_setWait env false true rng url st, ?_, ?_, ?_, ?_, ?_⟩ <;>
    decide

/-- C7: the correlation id is generated once per `crawl` call by
`rand_alnum(8)` — a fixed-length-8 alphanumeric token — and every event of
the job that records a debugging id (traffic-sink wrapper creation,
`set_debugging_id`, every strategy invocation) records exactly that id. -/
theorem c7_correlation_id_stable (env : Env) (rng : Nat → Nat) (url : String)
    (st : St) (ev : Event) (d : String)
    (h0 : st.events = [])
    (hev : ev ∈ ((ChromeCrawler.crawl env rng url st).2).events)
    (hd : eventDid ev = some d) :
    d = rand_alnum 8 rng
    ∧ (rand_alnum 8 rng).length = 8
    ∧ (rand_alnum 8 rng).toList.all (fun c => ALNUM.contains c) = true := by
  refine ⟨?_, ?_, ?_⟩
  · have hall : st.events.all (evDidOk (rand_alnum 8 rng)) = true := by simp [h0]
    have h2 := loop_did env url (rand_alnum 8 rng) st.crawler.crawl_strategies st hall
    have hstate : ((ChromeCrawler.crawl env rng url st).2).events
        = ((_crawl_loop env url (rand_alnum 8 rng) st.crawler.crawl_strategies st).2).events := by
      simp only [ChromeCrawler.crawl, _crawl]
      cases hres : _crawl_loop env url (rand_alnum 8 rng) st.crawler.crawl_strategies st with
      | mk r st1 => cases r <;> rfl
    rw [hstate] at hev
    rw [List.all_eq_true] at h2
    have h3 := h2 ev hev
    simp [evDidOk, hd] at h3
    exact h3
  · simp [rand_alnum, String.length]
  · rw [List.all_eq_true]
    intro c hc
    simp only [rand_alnum, String.toList] at hc
    simp only [List.mem_map, List.mem_range] at hc
    obtain ⟨i, _, rfl⟩ := hc
    simp [List.elem_iff]

/-- Witness for C7 at the first event of a concrete run. -/
theorem c7_witness :
    st1.events = []
    ∧ Event.sinkCreated "aaaaaaaa" ∈ ((ChromeCrawler.crawl envOk rng0 "u" st1).2).events
    ∧ eventDid (Event.sinkCreated "aaaaaaaa") = some "aaaaaaaa"
    ∧ ("aaaaaaaa" = rand_alnum 8 rng0
        ∧ (rand_alnum 8 rng0).length = 8
        ∧ (rand_alnum 8 rng0).toList.all (fun c => ALNUM.contains c) = true) :=
  ⟨rfl, by decide, rfl,
    c7_correlation_id_stable envOk rng0 "u" st1 (Event.sinkCreated "aaaaaaaa")
      "aaaaaaaa" rfl (by decide) rfl⟩

/-- C9: the eviction trigger differs by phase.  Injecting an error `e` at a
single phase of a one-strategy run started from a singleton idle pool, the
worker ends evicted (gone from both pool sets) exactly when the error struck
the strategy phase or `e` is one of the two Chrome-interface error types;
for any other exception in load, wait-for-load, stop, or cleanup the error
propagates unchanged while the worker stays borrowed — neither freed nor
removed. -/
theorem c9_eviction_asymmetry (p : Phase) (e : PyExc) (w : Nat) (url did : String) :
    ((((c9run p e w url did).2).crawler.pool.in_use = []
        ∧ ((c9run p e w url did).2).crawler.pool.free = [])
      ↔ (p = Phase.strategyPhase ∨ isInterfaceErr e = true))
    ∧ ((p ≠ Phase.strategyPhase ∧ isInterfaceErr e = false) →
        (c9run p e w url did).1 = .error e
        ∧ ((c9run p e w url did).2).crawler.pool.in_use = [w]) := by
  cases p <;> by_cases hi : isInterfaceErr e <;>
    simp [c9run, envErrAt, stW, _crawl_loop, _initial_page_load, _get_chrome_from_pool,
      _cleanup, ChromePool.getWorker, ChromePool.removeWorker, ChromePool.freeWorker,
      emit, setPool, hi, List.erase_cons_head]

/-- Witness for C9 at the load phase with a non-interface error. -/
theorem c9_witness :
    ((((c9run Phase.load PyExc.otherError 7 "u" "d").2).crawler.pool.in_use = []
        ∧ ((c9run Phase.load PyExc.otherError 7 "u" "d").2).crawler.pool.free = [])
      ↔ (Phase.load = Phase.strategyPhase ∨ isInterfaceErr PyExc.otherError = true))
    ∧ ((Phase.load ≠ Phase.strategyPhase ∧ isInterfaceErr PyExc.otherError = false) →
        (c9run Phase.load PyExc.otherError 7 "u" "d").1 = .error PyExc.otherError
        ∧ ((c9run Phase.load PyExc.otherError 7 "u" "d").2).crawler.pool.in_use = [7]) :=
  c9_eviction_asymmetry Phase.load PyExc.otherError 7 "u" "d"
